import Mathlib

/-!
Verification of the grounded-JSON retrieval core of the Naya Daur app
(src/src/App.jsx, with the near-identical copy in src/src/App 1st Ver.jsx).

The core consists of two functions:
- fetchWithBackoff (App.jsx lines 71-101): a fetch wrapper with
  exponential backoff on HTTP 429 and on transport failures;
- fetchGroundedJson (App.jsx lines 104-159): a two-phase retrieval that
  first asks for search-grounded free text and then re-parses that text
  into a schema-constrained JSON object.

The embedding models the network as an environment: each underlying
fetch attempt is an `Attempt` outcome drawn from a stream `Nat → Attempt`
(the k-th attempt of one fetchWithBackoff invocation gets outcome k).
Response bodies are modelled post-parse: `Attempt.resp` carries
`Option Json`, where `none` means the body is not parseable JSON, i.e.
the promise returned by `response.json()` rejects. `JSON.parse` for the
phase-2 text is modelled as an environment function
`String → Option Json` (`none` = the input is not valid JSON, so
`JSON.parse` throws).

Delays (`setTimeout`) are recorded as a list of waited durations, and
the number of underlying `fetch` calls is counted, so that retry and
backoff claims are statable.
-/

/-- JSON values, the shape of request/response bodies consumed by the app. -/
inductive Json where
  | null
  | bool (b : Bool)
  | num (n : Int)
  | str (s : String)
  | arr (elems : List Json)
  | obj (fields : List (String × Json))
deriving Repr

/-- Field access `j?.k` on an object: `none` models `undefined`. -/
def Json.get : Json → String → Option Json
  | .obj fields, k => fields.lookup k
  | _, _ => none

/-- Index access `j?.[n]` on an array: `none` models `undefined`. -/
def Json.index : Json → Nat → Option Json
  | .arr elems, n => elems.get? n
  | _, _ => none

/-- Outcome of one underlying `fetch(url, options)` call.
`throw` is a transport failure (the fetch promise rejects);
`resp status statusText body` is a settled HTTP response whose body,
when read as JSON, parses to `body` (`none`: `response.json()` rejects). -/
inductive Attempt where
  | throw
  | resp (status : Nat) (statusText : String) (body : Option Json)
deriving Repr

/-- `response.ok` per the fetch standard: status in the 2xx range. -/
def respOk (status : Nat) : Bool :=
  200 ≤ status && status < 300

/-- Errors a fetchWithBackoff promise can reject with:
- `transport i`: the transport error of attempt `i` (fetch itself threw);
- `bodyParse i`: the rejection of `response.json()` on a 2xx response of
  attempt `i` (returned un-awaited from inside the try, App.jsx line 93);
- `apiError status message`: the thrown
  Error("API Error: " ++ status ++ " " ++ message) of App.jsx line 91. -/
inductive JsErr where
  | transport (attempt : Nat)
  | bodyParse (attempt : Nat)
  | apiError (status : Nat) (message : String)
deriving Repr, DecidableEq

/-- The human-readable message carried by the thrown Error value. -/
def JsErr.message : JsErr → String
  | .transport _ => "TypeError: Failed to fetch"
  | .bodyParse _ => "SyntaxError: Unexpected token in JSON"
  | .apiError status msg => "API Error: " ++ toString status ++ " " ++ msg

/-- App.jsx lines 81-88: `detailedMessage` starts as `response.statusText`
and is replaced by `errorBody?.error?.message` when the body parses as
JSON and that nested field is a truthy string (JS `||` falls back on the
empty string); a body-parse failure is swallowed by the inner catch.
(A non-string `error.message` is outside the response shapes of spec §6
and is treated as the fallback here.) -/
def errorMessage (body : Option Json) (statusText : String) : String :=
  match body with
  | none => statusText
  | some errorBody =>
    match (errorBody.get "error").bind (fun e => e.get "message") with
    | some (.str m) => if m = "" then statusText else m
    | _ => statusText

/-- Observable outcome of one fetchWithBackoff invocation:
the settled result, the number of underlying fetch calls made, and the
list of backoff delays waited, in order. -/
structure FetchOut where
  result : Except JsErr Json
  calls : Nat
  delays : List Nat
deriving Repr

/-- Bookkeeping for `await setTimeout(delay)` followed by the recursive
call: the recursion's result is returned as-is (the recursive call is
returned, not re-guarded), with this level's fetch call and delay added. -/
def retryStep (delay : Nat) (r : FetchOut) : FetchOut :=
  { result := r.result, calls := r.calls + 1, delays := delay :: r.delays }

/-- App.jsx lines 71-101 (identical control flow in App 1st Ver.jsx at
lines 123-142 and 1170-1200, minus/plus the error-body message probe):

  const fetchWithBackoff = async (url, options, retries = 3, delay = 1000) => {
    try {
      const response = await fetch(url, options);
      if (!response.ok) {
        if (response.status === 429 && retries > 0) {
          await new Promise(res => setTimeout(res, delay));
          return fetchWithBackoff(url, options, retries - 1, delay * 2);
        }
        ... build detailedMessage from the body ...
        throw new Error("API Error: " + response.status + " " + detailedMessage);
      }
      return response.json();
    } catch (error) {
      if (retries > 0) {
        await new Promise(res => setTimeout(res, delay));
        return fetchWithBackoff(url, options, retries - 1, delay * 2);
      }
      throw error;
    }
  };

Faithfulness notes:
- the non-429 `throw new Error(...)` happens inside the try block, so it
  is caught by the catch, which retries whenever `retries > 0`; only at
  `retries = 0` does that error propagate. The match on `retries` is
  hoisted above the 429 test because both the `retries > 0` guard of the
  429 branch and the catch's `retries > 0` test read the same value;
  both retry paths wait `delay` once and recurse with `retries - 1` and
  `delay * 2`.
- `return response.json()` on the success path is returned without being
  awaited inside the try, so its rejection (body not valid JSON) is NOT
  caught by the catch: it propagates with no retry.
- `return fetchWithBackoff(...)` in both retry sites is likewise not
  awaited inside the try, so the recursive call's rejection propagates
  as-is, which the plain `retryStep` wrapper reflects.
`env k` is the outcome of the k-th underlying fetch attempt. -/
def fetchWithBackoff (env : Nat → Attempt) (i : Nat) (retries : Nat)
    (delay : Nat) : FetchOut :=
  match env i with
  | .throw =>
    -- fetch itself rejected: caught by the catch block
    match retries with
    | r + 1 => retryStep delay (fetchWithBackoff env (i + 1) r (delay * 2))
    | 0 => { result := .error (.transport i), calls := 1, delays := [] }
  | .resp status statusText body =>
    if respOk status then
      -- return response.json(): not awaited inside try, so a body-parse
      -- rejection bypasses the catch and is never retried
      match body with
      | some v => { result := .ok v, calls := 1, delays := [] }
      | none => { result := .error (.bodyParse i), calls := 1, delays := [] }
    else
      match retries with
      | r + 1 =>
        if status = 429 then
          -- throttled: retry with backoff
          retryStep delay (fetchWithBackoff env (i + 1) r (delay * 2))
        else
          -- detailedMessage is built and Error thrown, but the throw is
          -- inside the try, so the catch retries with the same backoff
          retryStep delay (fetchWithBackoff env (i + 1) r (delay * 2))
      | 0 =>
        { result := .error (.apiError status (errorMessage body statusText)),
          calls := 1, delays := [] }

/-- The payload handed to fetchWithBackoff: the single prompt text of
`contents[0].parts[0].text`, whether `tools: [{ google_search: {} }]` is
attached, and the `generationConfig.responseSchema` when present
(`responseMimeType: "application/json"` always accompanies the schema
in the source and is implied by `responseSchema ≠ none`). -/
structure Payload where
  promptText : String
  usesGoogleSearch : Bool
  responseSchema : Option Json
deriving Repr

/-- App.jsx lines 104-108: the phase-1 search payload for a prompt. -/
def searchPayloadOf (textPrompt : String) : Payload :=
  { promptText := textPrompt, usesGoogleSearch := true, responseSchema := none }

/-- App.jsx lines 127-137: the phase-2 re-parse prompt embedding the
phase-1 grounded text in a fixed template (JS template literal). -/
def parseJsonPrompt (groundedText : String) : String :=
  "\n    Parse the following market analysis text and convert it into a valid JSON object matching the provided schema.\n\n    TEXT TO PARSE:\n    ---\n    "
    ++ groundedText
    ++ "\n    ---\n\n    Respond ONLY with the valid JSON object.\n  "

/-- App.jsx lines 139-145: the phase-2 structured payload. -/
def jsonPayloadOf (groundedText : String) (jsonSchema : Json) : Payload :=
  { promptText := parseJsonPrompt groundedText, usesGoogleSearch := false,
    responseSchema := some jsonSchema }

/-- `data.candidates?.[0]?.content?.parts?.[0]?.text` — the first
candidate's first text part, when that path exists and is a string
(a non-string value at the path is outside the response shape of
spec §6 and yields `none` here). -/
def firstPartText (data : Json) : Option String :=
  match ((((data.get "candidates").bind (fun c => c.index 0)).bind
      (fun c => c.get "content")).bind
      (fun c => c.get "parts")).bind
      (fun p => (p.index 0).bind (fun q => q.get "text")) with
  | some (.str s) => some s
  | _ => none

/-- Errors a fetchGroundedJson promise can reject with. -/
inductive RetErr where
  /-- a rejection propagated from one of the two fetchWithBackoff calls -/
  | fetchErr (e : JsErr)
  /-- Error("Step 1 Failed: No content returned from analysis.") -/
  | step1Failed
  /-- Error("Step 2 Failed: No JSON content returned from parsing.") -/
  | step2Failed
  /-- the exception thrown by `JSON.parse(text)` on invalid JSON -/
  | jsonParseError (text : String)
deriving Repr, DecidableEq

/-- Observable outcome of one fetchGroundedJson invocation: the settled
result and the payloads handed to fetchWithBackoff, in call order. -/
structure RetrieveOut where
  result : Except RetErr Json
  requests : List Payload
deriving Repr

/-- App.jsx lines 104-159:

  const fetchGroundedJson = async (apiKey, textPrompt, jsonSchema, setLoadingMessage) => {
    ...
    const searchData = await fetchWithBackoff(apiUrl, { ...searchPayload... });
    const groundedText = searchData.candidates?.[0]?.content?.parts?.[0]?.text;
    if (!groundedText) throw new Error('Step 1 Failed: ...');
    ...
    const jsonData = await fetchWithBackoff(apiUrl, { ...jsonPayload... });
    const jsonText = jsonData.candidates?.[0]?.content?.parts?.[0]?.text;
    if (jsonText) return JSON.parse(jsonText);
    else throw new Error('Step 2 Failed: ...');
  };

`net` maps each request payload to its attempt-outcome stream;
`jsonParse` models `JSON.parse` on the phase-2 text. JS truthiness of
`!groundedText` / `if (jsonText)` makes both the absent (`none`) and the
empty-string text fall into the failure branch. Both fetchWithBackoff
calls use the source defaults retries = 3, delay = 1000. The `apiKey`
and the progress messages sent through `setLoadingMessage` do not affect
the observable outcome and are not modelled. -/
def fetchGroundedJson (net : Payload → Nat → Attempt)
    (jsonParse : String → Option Json) (textPrompt : String)
    (jsonSchema : Json) : RetrieveOut :=
  let searchPayload := searchPayloadOf textPrompt
  match (fetchWithBackoff (net searchPayload) 0 3 1000).result with
  | .error e => { result := .error (.fetchErr e), requests := [searchPayload] }
  | .ok searchData =>
    match firstPartText searchData with
    | none => { result := .error .step1Failed, requests := [searchPayload] }
    | some groundedText =>
      if groundedText = "" then
        { result := .error .step1Failed, requests := [searchPayload] }
      else
        let jsonPayload := jsonPayloadOf groundedText jsonSchema
        match (fetchWithBackoff (net jsonPayload) 0 3 1000).result with
        | .error e =>
          { result := .error (.fetchErr e),
            requests := [searchPayload, jsonPayload] }
        | .ok jsonData =>
          match firstPartText jsonData with
          | none =>
            { result := .error .step2Failed,
              requests := [searchPayload, jsonPayload] }
          | some jsonText =>
            if jsonText = "" then
              { result := .error .step2Failed,
                requests := [searchPayload, jsonPayload] }
            else
              match jsonParse jsonText with
              | some v =>
                { result := .ok v, requests := [searchPayload, jsonPayload] }
              | none =>
                { result := .error (.jsonParseError jsonText),
                  requests := [searchPayload, jsonPayload] }

/-! ## Claim C3 -/

/-- C3: for every call to fetchWithBackoff with retries = 0, exactly one
underlying fetch attempt is made and no delay is ever waited, whatever
the outcome of that attempt (transport throw, 429, other non-2xx,
2xx with parseable body, 2xx with unparseable body). -/
theorem claim_C3_zero_retries_one_attempt_no_delay (env : Nat → Attempt)
    (i delay : Nat) :
    (fetchWithBackoff env i 0 delay).calls = 1 ∧
      (fetchWithBackoff env i 0 delay).delays = [] := by
  cases h : env i with
  | throw => simp [fetchWithBackoff, h]
  | resp status statusText body =>
    cases hok : respOk status <;> cases body <;>
      simp [fetchWithBackoff, h, hok]

/-! ## Claim C9 -/

/-- C9: for every initial retries value r and every sequence of attempt
outcomes, fetchWithBackoff terminates (it is a total function of the
environment by construction) and makes at most r + 1 underlying fetch
calls: every recursive call strictly decrements retries and recursion
only happens when retries > 0. -/
theorem claim_C9_at_most_retries_succ_calls (env : Nat → Attempt)
    (retries i delay : Nat) :
    (fetchWithBackoff env i retries delay).calls ≤ retries + 1 := by
  induction retries generalizing i delay with
  | zero =>
    cases h : env i with
    | throw => simp [fetchWithBackoff, h]
    | resp status statusText body =>
      cases hok : respOk status <;> cases body <;>
        simp [fetchWithBackoff, h, hok]
  | succ r ih =>
    cases h : env i with
    | throw =>
      have := ih (i + 1) (delay * 2)
      simp [fetchWithBackoff, h, retryStep]
      omega
    | resp status statusText body =>
      have := ih (i + 1) (delay * 2)
      cases hok : respOk status
      · -- both the 429 branch and the caught-throw branch retry once
        simp [fetchWithBackoff, h, hok, retryStep]
        omega
      · cases body <;> simp [fetchWithBackoff, h, hok]

/-! ## Claim C10 -/

/-- C10: for every 2xx response whose body is not valid JSON,
fetchWithBackoff fails with the body-parse error of that very attempt,
without performing any retry and without waiting any delay, even when
retries > 0: the success branch returns the body-parsing promise
without awaiting it inside the try block, so its rejection bypasses the
retry catch. -/
theorem claim_C10_body_parse_rejection_not_retried (env : Nat → Attempt)
    (status : Nat) (statusText : String) (retries delay : Nat)
    (h0 : env 0 = .resp status statusText none)
    (hok : respOk status = true) :
    fetchWithBackoff env 0 retries delay =
      { result := .error (.bodyParse 0), calls := 1, delays := [] } := by
  cases retries <;> simp [fetchWithBackoff, h0, hok]

/-- C10 witness: a 200 response with an unparseable body, retries = 3:
the invocation settles on the body-parse rejection after exactly one
fetch call and no delay. -/
theorem claim_C10_body_parse_rejection_not_retried_witness :
    (fun _ : Nat => Attempt.resp 200 "OK" none) 0 =
        Attempt.resp 200 "OK" none ∧
    respOk 200 = true ∧
    fetchWithBackoff (fun _ : Nat => Attempt.resp 200 "OK" none) 0 3 1000 =
      { result := .error (.bodyParse 0), calls := 1, delays := [] } :=
  ⟨rfl, rfl,
    claim_C10_body_parse_rejection_not_retried
      (fun _ : Nat => Attempt.resp 200 "OK" none) 200 "OK" 3 1000 rfl rfl⟩

/-! ## Claim C1 -/

/-- A network where attempt 0 answers HTTP 500 (not parseable as JSON)
and every later attempt answers 200 with body `null`. -/
def c1Env : Nat → Attempt := fun i =>
  if i = 0 then Attempt.resp 500 "Internal Server Error" none
  else Attempt.resp 200 "OK" (some Json.null)

/-- C1 counterexample: a non-2xx, non-429 response (HTTP 500) is NOT a
terminal failure when retries remain. With retries = 3, the thrown
"API Error" lands in the catch block, which retries: a second fetch
attempt is made and the invocation even succeeds, so no error carrying
the status code ever reaches the caller. -/
theorem claim_C1_counterexample :
    respOk 500 = false ∧ (500 : Nat) ≠ 429 ∧
    c1Env 0 = Attempt.resp 500 "Internal Server Error" none ∧
    (fetchWithBackoff c1Env 0 3 1000).calls = 2 ∧
    (fetchWithBackoff c1Env 0 3 1000).result = Except.ok Json.null := by
  refine ⟨rfl, by decide, rfl, rfl, rfl⟩

/-- C1 (amended): for every non-2xx non-429 response to the current
attempt, fetchWithBackoff builds the error carrying the HTTP status code
and the extracted message and throws it, but the throw happens inside
the try block: when retries = 0 that error propagates to the caller
after exactly one fetch and no delay, while when retries > 0 the
surrounding catch intercepts it and performs one delayed backoff retry
(waiting `delay`, recursing with retries - 1 and delay * 2), so the
failure is terminal only once retries are exhausted. -/
theorem claim_C1_non2xx_error_terminal_only_at_zero_retries
    (env : Nat → Attempt) (status : Nat) (statusText : String)
    (body : Option Json) (delay : Nat)
    (h0 : env 0 = .resp status statusText body)
    (hok : respOk status = false) (h429 : status ≠ 429) :
    (fetchWithBackoff env 0 0 delay =
      { result := .error (.apiError status (errorMessage body statusText)),
        calls := 1, delays := [] }) ∧
    ∀ r : Nat, fetchWithBackoff env 0 (r + 1) delay =
      retryStep delay (fetchWithBackoff env 1 r (delay * 2)) := by
  constructor
  · simp [fetchWithBackoff, h0, hok]
  · intro r
    simp [fetchWithBackoff, h0, hok, h429]

/-- C1 (amended) witness: the HTTP 500 environment above. At retries = 0
the API error (status 500, message "Internal Server Error") propagates
after one fetch; at retries = 2 + 1 the call reduces to a delayed retry. -/
theorem claim_C1_non2xx_error_terminal_only_at_zero_retries_witness :
    c1Env 0 = Attempt.resp 500 "Internal Server Error" none ∧
    respOk 500 = false ∧ (500 : Nat) ≠ 429 ∧
    ((fetchWithBackoff c1Env 0 0 1000 =
      { result := .error (.apiError 500 "Internal Server Error"),
        calls := 1, delays := [] }) ∧
     ∀ r : Nat, fetchWithBackoff c1Env 0 (r + 1) 1000 =
       retryStep 1000 (fetchWithBackoff c1Env 1 r 2000)) :=
  ⟨rfl, rfl, by decide,
    claim_C1_non2xx_error_terminal_only_at_zero_retries
      c1Env 500 "Internal Server Error" none 1000 rfl rfl (by decide)⟩

/-! ## Claim C2 -/

/-- C2: under sustained HTTP 429, every level with retries > 0 performs
exactly one delayed retry, recursing with retries - 1 and delay * 2, so
the waited delays are delay * 2 ^ k for k = 0, ..., retries - 1 (one per
remaining retry count, strictly doubling), and when retries reach 0 the
429 error — the thrown API error carrying status 429 and the extracted
message — propagates to the caller. -/
theorem claim_C2_429_backoff_doubles_until_exhaustion
    (env : Nat → Attempt) (statusText : String) (body : Option Json)
    (henv : ∀ k, env k = .resp 429 statusText body)
    (retries i delay : Nat) :
    fetchWithBackoff env i retries delay =
      { result := .error (.apiError 429 (errorMessage body statusText)),
        calls := retries + 1,
        delays := (List.range retries).map (fun k => delay * 2 ^ k) } := by
  induction retries generalizing i delay with
  | zero => simp [fetchWithBackoff, henv i, respOk]
  | succ r ih =>
    have hstep : fetchWithBackoff env i (r + 1) delay =
        retryStep delay (fetchWithBackoff env (i + 1) r (delay * 2)) := by
      simp [fetchWithBackoff, henv i, respOk]
    rw [hstep, ih (i + 1) (delay * 2)]
    simp only [retryStep, List.range_succ_eq_map, List.map_cons, List.map_map,
      FetchOut.mk.injEq, pow_zero, mul_one, List.cons.injEq, true_and]
    refine congrArg (fun f => List.map f (List.range r)) ?_
    funext k
    simp only [Function.comp, pow_succ]
    ring

/-- C2 witness: every attempt answers 429 "Too Many Requests"; with the
source defaults retries = 3, delay = 1000 the invocation makes 4 fetch
calls, waits 1000, 2000, 4000 (strictly doubling), and settles on the
API error for status 429. -/
theorem claim_C2_429_backoff_doubles_until_exhaustion_witness :
    (∀ k : Nat, (fun _ : Nat => Attempt.resp 429 "Too Many Requests" none) k =
        Attempt.resp 429 "Too Many Requests" none) ∧
    (List.range 3).map (fun k => 1000 * 2 ^ k) = [1000, 2000, 4000] ∧
    fetchWithBackoff (fun _ : Nat => Attempt.resp 429 "Too Many Requests" none)
        0 3 1000 =
      { result := .error (.apiError 429 "Too Many Requests"),
        calls := 3 + 1,
        delays := (List.range 3).map (fun k => 1000 * 2 ^ k) } :=
  ⟨fun _ => rfl, by decide,
    claim_C2_429_backoff_doubles_until_exhaustion
      (fun _ : Nat => Attempt.resp 429 "Too Many Requests" none)
      "Too Many Requests" none (fun _ => rfl) 3 0 1000⟩

/-! ## Claim C4 -/

/-- C4: for a non-2xx response that is not retried (retries exhausted,
so the built error is the one that propagates), fetchWithBackoff still
raises an error when the body is not parseable JSON — no crash on the
body-parse failure — and that error's message falls back to the
transport status text; while when the body does parse as JSON with a
truthy nested error.message string, that nested message is carried
instead. Both scenarios are stated over their own environment. -/
theorem claim_C4_error_message_extraction_and_fallback
    (env1 env2 : Nat → Attempt) (status1 status2 : Nat)
    (statusText1 statusText2 : String) (errorBody : Json) (m : String)
    (delay : Nat)
    (h1 : env1 0 = .resp status1 statusText1 none)
    (hok1 : respOk status1 = false)
    (h2 : env2 0 = .resp status2 statusText2 (some errorBody))
    (hok2 : respOk status2 = false)
    (hm : (errorBody.get "error").bind (fun e => e.get "message") =
        some (.str m))
    (hne : m ≠ "") :
    fetchWithBackoff env1 0 0 delay =
      { result := .error (.apiError status1 statusText1),
        calls := 1, delays := [] } ∧
    fetchWithBackoff env2 0 0 delay =
      { result := .error (.apiError status2 m),
        calls := 1, delays := [] } := by
  constructor
  · simp [fetchWithBackoff, h1, hok1, errorMessage]
  · simp [fetchWithBackoff, h2, hok2, errorMessage, hm, hne]

/-- A 403 error body of the shape the API returns,
`{ error: { message: "API key not valid" } }`. -/
def c4ErrorBody : Json :=
  Json.obj [("error", Json.obj [("message", Json.str "API key not valid")])]

/-- C4 witness: a 404 with unparseable body propagates
"API Error: 404 Not Found" (statusText fallback); a 403 whose body
nests error.message propagates that nested message. -/
theorem claim_C4_error_message_extraction_and_fallback_witness :
    (fun _ : Nat => Attempt.resp 404 "Not Found" none) 0 =
        Attempt.resp 404 "Not Found" none ∧
    respOk 404 = false ∧
    (fun _ : Nat => Attempt.resp 403 "Forbidden" (some c4ErrorBody)) 0 =
        Attempt.resp 403 "Forbidden" (some c4ErrorBody) ∧
    respOk 403 = false ∧
    (c4ErrorBody.get "error").bind (fun e => e.get "message") =
        some (.str "API key not valid") ∧
    "API key not valid" ≠ "" ∧
    (fetchWithBackoff (fun _ : Nat => Attempt.resp 404 "Not Found" none)
          0 0 1000 =
        { result := .error (.apiError 404 "Not Found"),
          calls := 1, delays := [] } ∧
      fetchWithBackoff
          (fun _ : Nat => Attempt.resp 403 "Forbidden" (some c4ErrorBody))
          0 0 1000 =
        { result := .error (.apiError 403 "API key not valid"),
          calls := 1, delays := [] }) :=
  ⟨rfl, rfl, rfl, rfl, rfl, by decide,
    claim_C4_error_message_extraction_and_fallback
      (fun _ : Nat => Attempt.resp 404 "Not Found" none)
      (fun _ : Nat => Attempt.resp 403 "Forbidden" (some c4ErrorBody))
      404 403 "Not Found" "Forbidden" c4ErrorBody "API key not valid" 1000
      rfl rfl rfl rfl rfl (by decide)⟩

/-! ## Claim C5 -/

/-- C5: whenever the phase-1 fetch succeeds but the first candidate's
first text part of its body is absent or empty (both falsy under the
`!groundedText` test), fetchGroundedJson fails with the "Step 1 Failed"
error and never issues the phase-2 request: the request trace is the
single phase-1 search payload. -/
theorem claim_C5_step1_failure_skips_phase2
    (net : Payload → Nat → Attempt) (jsonParse : String → Option Json)
    (textPrompt : String) (jsonSchema : Json) (searchData : Json)
    (h1 : (fetchWithBackoff (net (searchPayloadOf textPrompt)) 0 3 1000).result
        = .ok searchData)
    (hempty : firstPartText searchData = none ∨
        firstPartText searchData = some "") :
    (fetchGroundedJson net jsonParse textPrompt jsonSchema).result =
        .error .step1Failed ∧
    (fetchGroundedJson net jsonParse textPrompt jsonSchema).requests =
        [searchPayloadOf textPrompt] := by
  rcases hempty with h | h <;>
    constructor <;> simp [fetchGroundedJson, h1, h]

/-- A phase-1 body with an empty candidates array, so the path
`candidates?.[0]?.content?.parts?.[0]?.text` is undefined. -/
def c5NoCandidates : Json := Json.obj [("candidates", Json.arr [])]

/-- A network answering every phase-1 (search) request with 200 and the
no-candidates body; phase-2 requests would fail at the transport, but
they are never made. -/
def c5Net : Payload → Nat → Attempt := fun p _ =>
  if p.usesGoogleSearch then Attempt.resp 200 "OK" (some c5NoCandidates)
  else Attempt.throw

/-- C5 witness: on the no-candidates network, the retrieval fails with
the Step 1 error after the single phase-1 request. -/
theorem claim_C5_step1_failure_skips_phase2_witness :
    (fetchWithBackoff (c5Net (searchPayloadOf "prompt")) 0 3 1000).result =
        .ok c5NoCandidates ∧
    firstPartText c5NoCandidates = none ∧
    ((fetchGroundedJson c5Net (fun _ => none) "prompt" Json.null).result =
        .error .step1Failed ∧
      (fetchGroundedJson c5Net (fun _ => none) "prompt" Json.null).requests =
        [searchPayloadOf "prompt"]) :=
  ⟨rfl, rfl,
    claim_C5_step1_failure_skips_phase2 c5Net (fun _ => none) "prompt"
      Json.null c5NoCandidates rfl (Or.inl rfl)⟩

/-! ## Claim C7 -/

/-- C7 (round-trip): whenever both fetches succeed, phase 1 yields a
non-empty grounded text g, and the phase-2 body's first candidate's
first text part is a non-empty text t that parses as JSON to v,
fetchGroundedJson returns exactly v — the result of parsing that same
text independently, returned unmodified. -/
theorem claim_C7_round_trip_returns_parsed_phase2_text
    (net : Payload → Nat → Attempt) (jsonParse : String → Option Json)
    (textPrompt : String) (jsonSchema : Json)
    (searchData jsonData v : Json) (g t : String)
    (h1 : (fetchWithBackoff (net (searchPayloadOf textPrompt)) 0 3 1000).result
        = .ok searchData)
    (hg : firstPartText searchData = some g) (hgne : g ≠ "")
    (h2 : (fetchWithBackoff (net (jsonPayloadOf g jsonSchema)) 0 3 1000).result
        = .ok jsonData)
    (ht : firstPartText jsonData = some t) (htne : t ≠ "")
    (hp : jsonParse t = some v) :
    (fetchGroundedJson net jsonParse textPrompt jsonSchema).result =
        .ok v := by
  simp [fetchGroundedJson, h1, hg, hgne, h2, ht, htne, hp]

/-- Response body whose first candidate's first part carries `t`:
`{ candidates: [{ content: { parts: [{ text: t }] } }] }`. -/
def mkTextResponse (t : String) : Json :=
  Json.obj [("candidates", Json.arr [Json.obj [("content",
    Json.obj [("parts", Json.arr [Json.obj [("text", Json.str t)]])])]])]

/-- A fully successful network: phase-1 requests get a grounded text,
phase-2 requests get the JSON text "null". -/
def c7Net : Payload → Nat → Attempt := fun p _ =>
  if p.usesGoogleSearch then
    Attempt.resp 200 "OK" (some (mkTextResponse "grounded facts"))
  else Attempt.resp 200 "OK" (some (mkTextResponse "null"))

/-- A JSON.parse model for the C7 witness: "null" parses to null,
everything else is invalid. -/
def c7Parse : String → Option Json := fun s =>
  if s = "null" then some Json.null else none

/-- C7 witness: on the fully successful network, the retrieval returns
exactly the independently parsed phase-2 text. -/
theorem claim_C7_round_trip_returns_parsed_phase2_text_witness :
    (fetchWithBackoff (c7Net (searchPayloadOf "prompt")) 0 3 1000).result =
        .ok (mkTextResponse "grounded facts") ∧
    firstPartText (mkTextResponse "grounded facts") = some "grounded facts" ∧
    "grounded facts" ≠ "" ∧
    (fetchWithBackoff (c7Net (jsonPayloadOf "grounded facts" Json.null))
        0 3 1000).result = .ok (mkTextResponse "null") ∧
    firstPartText (mkTextResponse "null") = some "null" ∧
    "null" ≠ "" ∧
    c7Parse "null" = some Json.null ∧
    (fetchGroundedJson c7Net c7Parse "prompt" Json.null).result =
        .ok Json.null :=
  ⟨rfl, rfl, by decide, rfl, rfl, by decide, rfl,
    claim_C7_round_trip_returns_parsed_phase2_text c7Net c7Parse "prompt"
      Json.null (mkTextResponse "grounded facts") (mkTextResponse "null")
      Json.null "grounded facts" "null" rfl rfl (by decide) rfl rfl
      (by decide) rfl⟩

/-! ## Claim C6 -/

/-- A network whose phase-1 answer carries the text "market facts" and
whose phase-2 answer carries a present but EMPTY text part. -/
def c6Net : Payload → Nat → Attempt := fun p _ =>
  if p.usesGoogleSearch then
    Attempt.resp 200 "OK" (some (mkTextResponse "market facts"))
  else Attempt.resp 200 "OK" (some (mkTextResponse ""))

/-- C6 counterexample: in the phase-2 response the first candidate's
first text part is PRESENT, with text "", and "" is not valid JSON
(JSON.parse("") throws) — yet the retriever fails with the
"Step 2 Failed" error, not with a JSON-parse error: the source guards
the parse with the truthiness test `if (jsonText)`, which the empty
string fails, so a present-but-empty text part is routed to the
"Step 2 Failed" branch. -/
theorem claim_C6_counterexample :
    firstPartText (mkTextResponse "") = some "" ∧
    (fun _ : String => (none : Option Json)) "" = none ∧
    (fetchGroundedJson c6Net (fun _ => none) "p" Json.null).result =
        .error .step2Failed ∧
    (fetchGroundedJson c6Net (fun _ => none) "p" Json.null).result ≠
        .error (.jsonParseError "") := by
  refine ⟨rfl, rfl, rfl, ?_⟩
  have h : (fetchGroundedJson c6Net (fun _ => none) "p" Json.null).result =
      .error .step2Failed := rfl
  rw [h]
  simp

/-- C6 (amended): after a successful phase 1 with non-empty grounded
text and a successful phase-2 fetch: if the phase-2 text part is absent
OR empty (both falsy), the retriever fails with the "Step 2 Failed"
error; if the text part is present and non-empty but is not
syntactically valid JSON, the retriever fails with the JSON-parse error
for that text (not "Step 2 Failed"), with no repair and no retry at
this level. The two sub-cases are stated over their own environment. -/
theorem claim_C6_step2_error_taxonomy
    (netA netB : Payload → Nat → Attempt)
    (parseA parseB : String → Option Json)
    (promptA promptB : String) (schemaA schemaB : Json)
    (sdA sdB jdA jdB : Json) (gA gB t : String)
    (h1A : (fetchWithBackoff (netA (searchPayloadOf promptA)) 0 3 1000).result
        = .ok sdA)
    (hgA : firstPartText sdA = some gA) (hgAne : gA ≠ "")
    (h2A : (fetchWithBackoff (netA (jsonPayloadOf gA schemaA)) 0 3 1000).result
        = .ok jdA)
    (htA : firstPartText jdA = none ∨ firstPartText jdA = some "")
    (h1B : (fetchWithBackoff (netB (searchPayloadOf promptB)) 0 3 1000).result
        = .ok sdB)
    (hgB : firstPartText sdB = some gB) (hgBne : gB ≠ "")
    (h2B : (fetchWithBackoff (netB (jsonPayloadOf gB schemaB)) 0 3 1000).result
        = .ok jdB)
    (htB : firstPartText jdB = some t) (htBne : t ≠ "")
    (hpB : parseB t = none) :
    (fetchGroundedJson netA parseA promptA schemaA).result =
        .error .step2Failed ∧
    ((fetchGroundedJson netB parseB promptB schemaB).result =
        .error (.jsonParseError t) ∧
      (fetchGroundedJson netB parseB promptB schemaB).requests =
        [searchPayloadOf promptB, jsonPayloadOf gB schemaB]) := by
  refine ⟨?_, ?_, ?_⟩
  · rcases htA with h | h <;> simp [fetchGroundedJson, h1A, hgA, hgAne, h2A, h]
  · simp [fetchGroundedJson, h1B, hgB, hgBne, h2B, htB, htBne, hpB]
  · simp [fetchGroundedJson, h1B, hgB, hgBne, h2B, htB, htBne, hpB]

/-- A network whose phase-2 answer carries the non-empty text "not json",
which the parse model rejects. -/
def c6NetB : Payload → Nat → Attempt := fun p _ =>
  if p.usesGoogleSearch then
    Attempt.resp 200 "OK" (some (mkTextResponse "market facts"))
  else Attempt.resp 200 "OK" (some (mkTextResponse "not json"))

/-- C6 (amended) witness: on c6Net (empty phase-2 text) the retrieval
fails with Step 2 Failed; on c6NetB ("not json" phase-2 text, rejected
by the parse) it fails with the JSON-parse error after exactly the two
requests. -/
theorem claim_C6_step2_error_taxonomy_witness :
    (fetchWithBackoff (c6Net (searchPayloadOf "p")) 0 3 1000).result =
        .ok (mkTextResponse "market facts") ∧
    firstPartText (mkTextResponse "market facts") = some "market facts" ∧
    "market facts" ≠ "" ∧
    (fetchWithBackoff (c6Net (jsonPayloadOf "market facts" Json.null))
        0 3 1000).result = .ok (mkTextResponse "") ∧
    firstPartText (mkTextResponse "") = some "" ∧
    (fetchWithBackoff (c6NetB (searchPayloadOf "p")) 0 3 1000).result =
        .ok (mkTextResponse "market facts") ∧
    (fetchWithBackoff (c6NetB (jsonPayloadOf "market facts" Json.null))
        0 3 1000).result = .ok (mkTextResponse "not json") ∧
    firstPartText (mkTextResponse "not json") = some "not json" ∧
    "not json" ≠ "" ∧
    (fun _ : String => (none : Option Json)) "not json" = none ∧
    ((fetchGroundedJson c6Net (fun _ => none) "p" Json.null).result =
        .error .step2Failed ∧
      ((fetchGroundedJson c6NetB (fun _ => none) "p" Json.null).result =
          .error (.jsonParseError "not json") ∧
        (fetchGroundedJson c6NetB (fun _ => none) "p" Json.null).requests =
          [searchPayloadOf "p", jsonPayloadOf "market facts" Json.null])) :=
  ⟨rfl, rfl, by decide, rfl, rfl, rfl, rfl, rfl, by decide, rfl,
    claim_C6_step2_error_taxonomy c6Net c6NetB (fun _ => none) (fun _ => none)
      "p" "p" Json.null Json.null
      (mkTextResponse "market facts") (mkTextResponse "market facts")
      (mkTextResponse "") (mkTextResponse "not json")
      "market facts" "market facts" "not json"
      rfl rfl (by decide) rfl (Or.inr rfl)
      rfl rfl (by decide) rfl rfl (by decide) rfl⟩

/-! ## Claim C8 -/

/-- C8 (invariant): whenever fetchGroundedJson produces a structured
result, a non-empty grounded text had been obtained in phase 1, and the
request trace is exactly the phase-1 search payload followed by the
phase-2 payload built from that phase-1 text — phase 1 is never
skipped, and the two network calls are issued sequentially (the second
is a function of the first call's response, so they cannot be
concurrent). -/
theorem claim_C8_structured_result_requires_nonempty_grounded
    (net : Payload → Nat → Attempt) (jsonParse : String → Option Json)
    (textPrompt : String) (jsonSchema : Json) (v : Json)
    (h : (fetchGroundedJson net jsonParse textPrompt jsonSchema).result =
        .ok v) :
    ∃ (searchData : Json) (g : String),
      (fetchWithBackoff (net (searchPayloadOf textPrompt)) 0 3 1000).result
          = .ok searchData ∧
      firstPartText searchData = some g ∧ g ≠ "" ∧
      (fetchGroundedJson net jsonParse textPrompt jsonSchema).requests =
        [searchPayloadOf textPrompt, jsonPayloadOf g jsonSchema] := by
  cases hf1 : (fetchWithBackoff (net (searchPayloadOf textPrompt))
      0 3 1000).result with
  | error e => simp [fetchGroundedJson, hf1] at h
  | ok searchData =>
    cases hg : firstPartText searchData with
    | none => simp [fetchGroundedJson, hf1, hg] at h
    | some g =>
      by_cases hgne : g = ""
      · simp [fetchGroundedJson, hf1, hg, hgne] at h
      · cases hf2 : (fetchWithBackoff (net (jsonPayloadOf g jsonSchema))
            0 3 1000).result with
        | error e => simp [fetchGroundedJson, hf1, hg, hgne, hf2] at h
        | ok jsonData =>
          cases ht : firstPartText jsonData with
          | none => simp [fetchGroundedJson, hf1, hg, hgne, hf2, ht] at h
          | some t =>
            by_cases htne : t = ""
            · simp [fetchGroundedJson, hf1, hg, hgne, hf2, ht, htne] at h
            · cases hp : jsonParse t with
              | none =>
                simp [fetchGroundedJson, hf1, hg, hgne, hf2, ht, htne, hp] at h
              | some w =>
                exact ⟨searchData, g, rfl, hg, hgne, by
                  simp [fetchGroundedJson, hf1, hg, hgne, hf2, ht, htne, hp]⟩

/-- C8 witness: on the fully successful network of the round-trip
scenario, the retrieval succeeds, and the invariant instantiates with
the grounded text "grounded facts" and the two sequential requests. -/
theorem claim_C8_structured_result_requires_nonempty_grounded_witness :
    (fetchGroundedJson c7Net c7Parse "prompt" Json.null).result =
        .ok Json.null ∧
    ∃ (searchData : Json) (g : String),
      (fetchWithBackoff (c7Net (searchPayloadOf "prompt")) 0 3 1000).result
          = .ok searchData ∧
      firstPartText searchData = some g ∧ g ≠ "" ∧
      (fetchGroundedJson c7Net c7Parse "prompt" Json.null).requests =
        [searchPayloadOf "prompt", jsonPayloadOf g Json.null] :=
  ⟨rfl,
    claim_C8_structured_result_requires_nonempty_grounded c7Net c7Parse
      "prompt" Json.null Json.null rfl⟩
